import Mathlib

/-!
Shallow embedding of the xhttp2 HTTP/2 frame codec and connection state
machine (Rust sources under src/), together with theorems checking the
natural-language specification against the code.

Bytes are modelled as natural numbers below 256 in a `List Nat`; multi-byte
integers are big-endian as in the source (the byteorder crate).  The
asynchronous reading futures of the source reduce, for a given input byte
stream, to pure functions that consume a prefix of the stream; a read that
would block is modelled by the `pending` outcome, a Rust panic
(an unimplemented! macro, an out-of-bounds slice index, or a usize
subtraction underflow) by the `crash` outcome, and a returned error value
by the `err` outcome.
-/

namespace Xhttp2

/-- Big-endian 16-bit read over two bytes (byteorder::BigEndian::read_u16). -/
def be16 (b0 b1 : Nat) : Nat := b0 * 256 + b1

/-- Big-endian 24-bit read over three bytes (byteorder::BigEndian::read_u24). -/
def be24 (b0 b1 b2 : Nat) : Nat := (b0 * 256 + b1) * 256 + b2

/-- Big-endian 32-bit read over four bytes (byteorder::BigEndian::read_u32). -/
def be32 (b0 b1 b2 b3 : Nat) : Nat := ((b0 * 256 + b1) * 256 + b2) * 256 + b3

/-- Big-endian 16-bit write (byteorder::BigEndian::write_u16). -/
def be16Bytes (v : Nat) : List Nat := [v / 256 % 256, v % 256]

/-- Big-endian 24-bit write (byteorder::BigEndian::write_u24). -/
def be24Bytes (v : Nat) : List Nat := [v / 65536 % 256, v / 256 % 256, v % 256]

/-- Big-endian 32-bit write (byteorder::BigEndian::write_u32). -/
def be32Bytes (v : Nat) : List Nat :=
  [v / 16777216 % 256, v / 65536 % 256, v / 256 % 256, v % 256]

/-- handy_async async_read_exact: take exactly n bytes from the input stream,
returning the bytes read and the rest of the stream, or none when the input
has fewer than n bytes (the reader would block). -/
def readExact (n : Nat) (input : List Nat) : Option (List Nat × List Nat) :=
  if n ≤ input.length then some (input.take n, input.drop n) else none

/-- ErrorKind from src/error.rs (RFC 7540 section 11.4 plus internal kinds). -/
inductive HErrorKind where
  | NoError
  | ProtocolError
  | InternalError
  | FlowControlError
  | SettingsTimeout
  | StreamClosed
  | FrameSizeError
  | RefusedStream
  | Cancel
  | CompressionError
  | ConnectError
  | EnhanceYourCalm
  | InadequateSecurity
  | Http11Required
  | Invalid
  | Io
  | Other
  deriving DecidableEq, Repr

/-- Error::from_code from src/error.rs: decode an RFC 7540 error code; an
unknown code becomes InternalError. -/
def errorFromCode (code : Nat) : HErrorKind :=
  match code with
  | 0x0 => .NoError
  | 0x1 => .ProtocolError
  | 0x2 => .InternalError
  | 0x3 => .FlowControlError
  | 0x4 => .SettingsTimeout
  | 0x5 => .StreamClosed
  | 0x6 => .FrameSizeError
  | 0x7 => .RefusedStream
  | 0x8 => .Cancel
  | 0x9 => .CompressionError
  | 0xa => .ConnectError
  | 0xb => .EnhanceYourCalm
  | 0xc => .InadequateSecurity
  | 0xd => .Http11Required
  | _ => .InternalError

/-- Modelled from the spec: Error::as_code is called by the GOAWAY and
RST_STREAM serializers (src/frame/goaway_frame.rs, rst_stream_frame.rs) but
its definition is not among the provided sources; the spec (section 6,
External Interfaces) fixes the RFC 7540 code of each error kind and says
internal helper errors collapse into INTERNAL_ERROR. -/
def errorAsCode (e : HErrorKind) : Nat :=
  match e with
  | .NoError => 0x0
  | .ProtocolError => 0x1
  | .InternalError => 0x2
  | .FlowControlError => 0x3
  | .SettingsTimeout => 0x4
  | .StreamClosed => 0x5
  | .FrameSizeError => 0x6
  | .RefusedStream => 0x7
  | .Cancel => 0x8
  | .CompressionError => 0x9
  | .ConnectError => 0xa
  | .EnhanceYourCalm => 0xb
  | .InadequateSecurity => 0xc
  | .Http11Required => 0xd
  | .Invalid => 0x2
  | .Io => 0x2
  | .Other => 0x2

/-- Setting from src/setting.rs. -/
inductive Setting where
  | HeaderTableSize (v : Nat)
  | EnablePush (v : Bool)
  | MaxConcurrentStreams (v : Nat)
  | InitialWindowSize (v : Nat)
  | MaxFrameSize (v : Nat)
  | MaxHeaderListSize (v : Nat)
  deriving DecidableEq, Repr

/-- Setting::from_bytes on an already split identifier and value
(src/setting.rs).  Note on MaxFrameSize: the source upper-bound check is
written value <= 1 << 24 - 1, which by Rust operator precedence is
value <= 1 << 23, that is value <= 8388608. -/
def settingFromIdValue (id value : Nat) : Except HErrorKind (Option Setting) :=
  match id with
  | 0x1 => .ok (some (.HeaderTableSize value))
  | 0x2 =>
    if value ≤ 1 then .ok (some (.EnablePush (value == 1)))
    else .error .ProtocolError
  | 0x3 => .ok (some (.MaxConcurrentStreams value))
  | 0x4 =>
    if value ≤ 2 ^ 31 - 1 then .ok (some (.InitialWindowSize value))
    else .error .FlowControlError
  | 0x5 =>
    if 2 ^ 14 ≤ value then
      if value ≤ 2 ^ 23 then .ok (some (.MaxFrameSize value))
      else .error .ProtocolError
    else .error .ProtocolError
  | 0x6 => .ok (some (.MaxHeaderListSize value))
  | _ => .ok none

/-- Setting::from_bytes from src/setting.rs: a 6-byte settings entry, the
identifier in the first two bytes and the value in the last four, both
big-endian. -/
def settingFromBytes (b : List Nat) : Except HErrorKind (Option Setting) :=
  match b with
  | [b0, b1, b2, b3, b4, b5] => settingFromIdValue (be16 b0 b1) (be32 b2 b3 b4 b5)
  | _ => .ok none

/-- Setting::to_bytes from src/setting.rs. -/
def settingToBytes (s : Setting) : List Nat :=
  match s with
  | .HeaderTableSize v => be16Bytes 0x1 ++ be32Bytes v
  | .EnablePush v => be16Bytes 0x2 ++ be32Bytes (if v then 1 else 0)
  | .MaxConcurrentStreams v => be16Bytes 0x3 ++ be32Bytes v
  | .InitialWindowSize v => be16Bytes 0x4 ++ be32Bytes v
  | .MaxFrameSize v => be16Bytes 0x5 ++ be32Bytes v
  | .MaxHeaderListSize v => be16Bytes 0x6 ++ be32Bytes v

/-- Priority from src/priority.rs.  The weight field stores the wire byte,
that is the weight minus one (Weight::from_weight_minus_one). -/
structure Priority where
  is_exclusive : Bool
  stream_dependency : Nat
  weight : Nat
  deriving DecidableEq, Repr

/-- Priority::from_bytes from src/priority.rs on the five payload bytes. -/
def priorityFromBytes (b0 b1 b2 b3 b4 : Nat) : Priority :=
  let temp := be32 b0 b1 b2 b3
  { is_exclusive := temp / 2 ^ 31 == 1
    stream_dependency := temp % 2 ^ 31
    weight := b4 }

/-- Priority::to_bytes from src/priority.rs. -/
def priorityToBytes (p : Priority) : List Nat :=
  be32Bytes ((if p.is_exclusive then 2 ^ 31 else 0) + p.stream_dependency) ++ [p.weight]

/-- FrameHeader from src/frame/frame_header.rs: 24-bit payload length, 8-bit
type, 8-bit flags, 31-bit stream id (reserved bit masked on read). -/
structure FrameHeader where
  payload_length : Nat
  frame_type : Nat
  flags : Nat
  stream_id : Nat
  deriving DecidableEq, Repr

/-- FrameHeader::write_into from src/frame/frame_header.rs: nine big-endian
octets. -/
def frameHeaderBytes (h : FrameHeader) : List Nat :=
  be24Bytes h.payload_length ++ [h.frame_type, h.flags] ++ be32Bytes h.stream_id

/-- ReadFrameHeader::poll from src/frame/frame_header.rs applied to nine
bytes: the reserved bit of the stream id is masked. -/
def frameHeaderParse (b : List Nat) : FrameHeader :=
  match b with
  | [b0, b1, b2, t, f, s0, s1, s2, s3] =>
    { payload_length := be24 b0 b1 b2
      frame_type := t
      flags := f
      stream_id := be32 s0 s1 s2 s3 % 2 ^ 31 }
  | _ => { payload_length := 0, frame_type := 0, flags := 0, stream_id := 0 }

/-- DataFrame from src/frame/data_frame.rs. -/
structure DataFrame where
  stream_id : Nat
  end_stream : Bool
  padding_len : Option Nat
  data : List Nat
  deriving DecidableEq, Repr

/-- HeadersFrame from src/frame/headers_frame.rs. -/
structure HeadersFrame where
  stream_id : Nat
  end_stream : Bool
  end_headers : Bool
  priority : Option Priority
  padding_len : Option Nat
  fragment : List Nat
  deriving DecidableEq, Repr

/-- PriorityFrame from src/frame/priority_frame.rs. -/
structure PriorityFrame where
  stream_id : Nat
  priority : Priority
  deriving DecidableEq, Repr

/-- RstStreamFrame from src/frame/rst_stream_frame.rs. -/
structure RstStreamFrame where
  stream_id : Nat
  error : HErrorKind
  deriving DecidableEq, Repr

/-- SettingsFrame from src/frame/settings_frame.rs. -/
inductive SettingsFrame where
  | Syn (settings : List Setting)
  | Ack
  deriving DecidableEq, Repr

/-- PushPromiseFrame from src/frame/push_promise_frame.rs. -/
structure PushPromiseFrame where
  stream_id : Nat
  promise_stream_id : Nat
  end_headers : Bool
  padding_len : Option Nat
  fragment : List Nat
  deriving DecidableEq, Repr

/-- PingFrame from src/frame/ping_frame.rs. -/
structure PingFrame where
  ack : Bool
  data : List Nat
  deriving DecidableEq, Repr

/-- GoawayFrame from src/frame/goaway_frame.rs. -/
structure GoawayFrame where
  last_stream_id : Nat
  error : HErrorKind
  debug_data : List Nat
  deriving DecidableEq, Repr

/-- WindowUpdateFrame from src/frame/window_update_frame.rs. -/
structure WindowUpdateFrame where
  stream_id : Nat
  window_size_increment : Nat
  deriving DecidableEq, Repr

/-- ContinuationFrame from src/frame/continuation_frame.rs. -/
structure ContinuationFrame where
  stream_id : Nat
  end_headers : Bool
  payload : List Nat
  deriving DecidableEq, Repr

/-- Frame from src/frame/mod.rs: the tagged sum of the ten frame types. -/
inductive Frame where
  | Continuation (f : ContinuationFrame)
  | Data (f : DataFrame)
  | Goaway (f : GoawayFrame)
  | Headers (f : HeadersFrame)
  | Ping (f : PingFrame)
  | Priority (f : PriorityFrame)
  | RstStream (f : RstStreamFrame)
  | PushPromise (f : PushPromiseFrame)
  | Settings (f : SettingsFrame)
  | WindowUpdate (f : WindowUpdateFrame)
  deriving DecidableEq, Repr

/-- DataFrame::payload_len from src/frame/data_frame.rs. -/
def DataFrame.payload_len (f : DataFrame) : Nat :=
  f.data.length + (match f.padding_len with | some x => x + 1 | none => 0)

/-- HeadersFrame::payload_len from src/frame/headers_frame.rs. -/
def HeadersFrame.payload_len (f : HeadersFrame) : Nat :=
  f.fragment.length + (match f.padding_len with | some x => x + 1 | none => 0) +
    (match f.priority with | some _ => 5 | none => 0)

/-- PushPromiseFrame::payload_len from src/frame/push_promise_frame.rs. -/
def PushPromiseFrame.payload_len (f : PushPromiseFrame) : Nat :=
  4 + f.fragment.length + (match f.padding_len with | some x => x + 1 | none => 0)

/-- SettingsFrame::payload_len from src/frame/settings_frame.rs. -/
def SettingsFrame.payload_len (f : SettingsFrame) : Nat :=
  match f with
  | .Syn settings => settings.length * 6
  | .Ack => 0

/-- DataFrame::frame_header from src/frame/data_frame.rs: END_STREAM is 0x1,
PADDED is 0x8. -/
def DataFrame.frame_header (f : DataFrame) : FrameHeader :=
  { payload_length := f.payload_len
    frame_type := 0x0
    flags := (if f.end_stream then 0x1 else 0) + (if f.padding_len.isSome then 0x8 else 0)
    stream_id := f.stream_id }

/-- HeadersFrame::frame_header from src/frame/headers_frame.rs: END_STREAM
0x1, END_HEADERS 0x4, PADDED 0x8, PRIORITY 0x20. -/
def HeadersFrame.frame_header (f : HeadersFrame) : FrameHeader :=
  { payload_length := f.payload_len
    frame_type := 0x1
    flags := (if f.end_stream then 0x1 else 0) + (if f.end_headers then 0x4 else 0) +
      (if f.padding_len.isSome then 0x8 else 0) + (if f.priority.isSome then 0x20 else 0)
    stream_id := f.stream_id }

/-- PriorityFrame::frame_header from src/frame/priority_frame.rs. -/
def PriorityFrame.frame_header (f : PriorityFrame) : FrameHeader :=
  { payload_length := 5, frame_type := 0x2, flags := 0, stream_id := f.stream_id }

/-- RstStreamFrame::frame_header from src/frame/rst_stream_frame.rs. -/
def RstStreamFrame.frame_header (f : RstStreamFrame) : FrameHeader :=
  { payload_length := 4, frame_type := 0x3, flags := 0, stream_id := f.stream_id }

/-- SettingsFrame::frame_header from src/frame/settings_frame.rs: the ACK
flag 0x1 is set for the Ack variant; stream id 0. -/
def SettingsFrame.frame_header (f : SettingsFrame) : FrameHeader :=
  { payload_length := f.payload_len
    frame_type := 0x4
    flags := if f = .Ack then 0x1 else 0
    stream_id := 0 }

/-- PushPromiseFrame::frame_header from src/frame/push_promise_frame.rs:
END_HEADERS 0x4, PADDED 0x8. -/
def PushPromiseFrame.frame_header (f : PushPromiseFrame) : FrameHeader :=
  { payload_length := f.payload_len
    frame_type := 0x5
    flags := (if f.end_headers then 0x4 else 0) + (if f.padding_len.isSome then 0x8 else 0)
    stream_id := f.stream_id }

/-- PingFrame::frame_header from src/frame/ping_frame.rs.  The source sets
flags to 0 unconditionally: the ack field of the frame is not reflected in
the serialized flags. -/
def PingFrame.frame_header (_f : PingFrame) : FrameHeader :=
  { payload_length := 8, frame_type := 0x6, flags := 0, stream_id := 0 }

/-- GoawayFrame::frame_header from src/frame/goaway_frame.rs. -/
def GoawayFrame.frame_header (f : GoawayFrame) : FrameHeader :=
  { payload_length := 4 + 4 + f.debug_data.length
    frame_type := 0x7
    flags := 0
    stream_id := 0 }

/-- WindowUpdateFrame::frame_header from src/frame/window_update_frame.rs. -/
def WindowUpdateFrame.frame_header (f : WindowUpdateFrame) : FrameHeader :=
  { payload_length := 4, frame_type := 0x8, flags := 0, stream_id := f.stream_id }

/-- ContinuationFrame::frame_header from src/frame/continuation_frame.rs:
END_HEADERS 0x4. -/
def ContinuationFrame.frame_header (f : ContinuationFrame) : FrameHeader :=
  { payload_length := f.payload.length
    frame_type := 0x9
    flags := if f.end_headers then 0x4 else 0
    stream_id := f.stream_id }

/-- Frame::frame_header from src/frame/mod.rs. -/
def Frame.frame_header (f : Frame) : FrameHeader :=
  match f with
  | .Continuation f => f.frame_header
  | .Data f => f.frame_header
  | .Goaway f => f.frame_header
  | .Headers f => f.frame_header
  | .Ping f => f.frame_header
  | .Priority f => f.frame_header
  | .RstStream f => f.frame_header
  | .PushPromise f => f.frame_header
  | .Settings f => f.frame_header
  | .WindowUpdate f => f.frame_header

/-- Payload bytes written by each write_into method (the body after the
9-octet header).  An optional pad length is one byte when present; padding
bytes are zeros (the write patterns use a zero slice). -/
def optByte (o : Option Nat) : List Nat :=
  match o with
  | some x => [x]
  | none => []

/-- Zero padding written on encode: the source slices a static zero array of
length padding_len. -/
def padBytes (o : Option Nat) : List Nat :=
  match o with
  | some x => List.replicate x 0
  | none => []

/-- SettingsFrame::settings from src/frame/settings_frame.rs: the settings
list of a Syn frame, empty for Ack. -/
def SettingsFrame.settingsList (f : SettingsFrame) : List Setting :=
  match f with
  | .Syn settings => settings
  | .Ack => []

/-- Payload serialization of Frame::write_into from src/frame/mod.rs and the
per-frame write_into methods. -/
def framePayloadBytes (f : Frame) : List Nat :=
  match f with
  | .Continuation f => f.payload
  | .Data f => optByte f.padding_len ++ f.data ++ padBytes f.padding_len
  | .Goaway f => be32Bytes f.last_stream_id ++ be32Bytes (errorAsCode f.error) ++ f.debug_data
  | .Headers f =>
    optByte f.padding_len ++ (match f.priority with | some p => priorityToBytes p | none => []) ++
      f.fragment ++ padBytes f.padding_len
  | .Ping f => f.data
  | .Priority f => priorityToBytes f.priority
  | .RstStream f => be32Bytes (errorAsCode f.error)
  | .PushPromise f =>
    optByte f.padding_len ++ be32Bytes f.promise_stream_id ++ f.fragment ++
      padBytes f.padding_len
  | .Settings f => (f.settingsList.map settingToBytes).flatten
  | .WindowUpdate f => be32Bytes f.window_size_increment

/-- Frame::write_into from src/frame/mod.rs: the frame header followed by
the payload. -/
def frameEncode (f : Frame) : List Nat :=
  frameHeaderBytes f.frame_header ++ framePayloadBytes f

/-- Outcome of polling a decode future to completion on a given input
stream: ready with a value and the unconsumed rest of the stream, pending
when the reader would block (not enough input bytes), err for a returned
Error of the given kind, and crash for a Rust panic (an unimplemented!
macro, an out-of-bounds slice index, or a usize subtraction underflow). -/
inductive PollResult (α : Type) where
  | ready (a : α)
  | pending
  | err (e : HErrorKind)
  | crash
  deriving DecidableEq, Repr

/-- DataFrame::read_from plus ReadDataFrame::poll from
src/frame/data_frame.rs, run to completion on an input stream.  With the
PADDED flag the pad-length octet is read first and the remaining buffer has
length payload_length - 1, a usize subtraction that underflows (crash) when
payload_length is 0. -/
def dataFrameDecode (h : FrameHeader) (input : List Nat) :
    PollResult (DataFrame × List Nat) :=
  if h.stream_id = 0 then .err .ProtocolError
  else if h.flags % 16 / 8 = 1 then
    match readExact 1 input with
    | none => .pending
    | some (padBytesRead, rest) =>
      let pad := padBytesRead.headD 0
      if h.payload_length = 0 then .crash
      else
        match readExact (h.payload_length - 1) rest with
        | none => .pending
        | some (buf, rest2) =>
          if buf.length < pad then .err .ProtocolError
          else
            .ready ({ stream_id := h.stream_id
                      end_stream := h.flags % 2 = 1
                      padding_len := some pad
                      data := buf.take (buf.length - pad) }, rest2)
  else
    match readExact h.payload_length input with
    | none => .pending
    | some (buf, rest) =>
      .ready ({ stream_id := h.stream_id
                end_stream := h.flags % 2 = 1
                padding_len := none
                data := buf }, rest)

/-- HeadersFrame::read_from plus ReadHeadersFrame::poll from
src/frame/headers_frame.rs, run to completion on an input stream.  The
fragment buffer has length payload_length - read_bytes where read_bytes
counts the pad-length octet (1) and the priority prefix (5); the usize
subtraction underflows (crash) when payload_length < read_bytes. -/
def headersFrameDecode (h : FrameHeader) (input : List Nat) :
    PollResult (HeadersFrame × List Nat) :=
  if h.stream_id = 0 then .err .ProtocolError
  else
    let padded := h.flags % 16 / 8 = 1
    let prioritized := h.flags % 64 / 32 = 1
    let afterPad : Option Nat → Nat → List Nat → PollResult (HeadersFrame × List Nat) :=
      fun padLen readBytes rest =>
        let withPriority : Option Priority → Nat → List Nat →
            PollResult (HeadersFrame × List Nat) :=
          fun prio readBytes2 rest2 =>
            if h.payload_length < readBytes2 then .crash
            else
              match readExact (h.payload_length - readBytes2) rest2 with
              | none => .pending
              | some (buf, rest3) =>
                match padLen with
                | some pad =>
                  if buf.length < pad then .err .ProtocolError
                  else
                    .ready ({ stream_id := h.stream_id
                              end_stream := h.flags % 2 = 1
                              end_headers := h.flags % 8 / 4 = 1
                              priority := prio
                              padding_len := some pad
                              fragment := buf.take (buf.length - pad) }, rest3)
                | none =>
                  .ready ({ stream_id := h.stream_id
                            end_stream := h.flags % 2 = 1
                            end_headers := h.flags % 8 / 4 = 1
                            priority := prio
                            padding_len := none
                            fragment := buf }, rest3)
        if prioritized then
          match readExact 5 rest with
          | none => .pending
          | some (pb, rest2) =>
            match pb with
            | [p0, p1, p2, p3, p4] =>
              withPriority (some (priorityFromBytes p0 p1 p2 p3 p4)) (readBytes + 5) rest2
            | _ => .crash
        else withPriority none readBytes rest
    if padded then
      match readExact 1 input with
      | none => .pending
      | some (pb, rest) => afterPad (some (pb.headD 0)) 1 rest
    else afterPad none 0 input

/-- PushPromiseFrame::read_from plus ReadPushPromiseFrame::poll from
src/frame/push_promise_frame.rs, run to completion on an input stream. -/
def pushPromiseFrameDecode (h : FrameHeader) (input : List Nat) :
    PollResult (PushPromiseFrame × List Nat) :=
  if h.stream_id = 0 then .err .ProtocolError
  else
    let afterPad : Option Nat → Nat → List Nat → PollResult (PushPromiseFrame × List Nat) :=
      fun padLen readBytes rest =>
        match readExact 4 rest with
        | none => .pending
        | some (sb, rest2) =>
          match sb with
          | [s0, s1, s2, s3] =>
            let promise := be32 s0 s1 s2 s3 % 2 ^ 31
            let readBytes2 := readBytes + 4
            if h.payload_length < readBytes2 then .crash
            else
              match readExact (h.payload_length - readBytes2) rest2 with
              | none => .pending
              | some (buf, rest3) =>
                match padLen with
                | some pad =>
                  if buf.length < pad then .err .ProtocolError
                  else
                    .ready ({ stream_id := h.stream_id
                              promise_stream_id := promise
                              end_headers := h.flags % 8 / 4 = 1
                              padding_len := some pad
                              fragment := buf.take (buf.length - pad) }, rest3)
                | none =>
                  .ready ({ stream_id := h.stream_id
                            promise_stream_id := promise
                            end_headers := h.flags % 8 / 4 = 1
                            padding_len := none
                            fragment := buf }, rest3)
          | _ => .crash
    if h.flags % 16 / 8 = 1 then
      match readExact 1 input with
      | none => .pending
      | some (pb, rest) => afterPad (some (pb.headD 0)) 1 rest
    else afterPad none 0 input

/-- GoawayFrame::read_from plus ReadGoawayFrame::poll from
src/frame/goaway_frame.rs, run to completion on an input stream.  The poll
body slices bytes[0..4] and bytes[4..8] and drains the first 8 bytes with no
length check, which panics (crash) when payload_length < 8. -/
def goawayFrameDecode (h : FrameHeader) (input : List Nat) :
    PollResult (GoawayFrame × List Nat) :=
  if h.stream_id ≠ 0 then .err .ProtocolError
  else
    match readExact h.payload_length input with
    | none => .pending
    | some (bytes, rest) =>
      match bytes with
      | b0 :: b1 :: b2 :: b3 :: b4 :: b5 :: b6 :: b7 :: debug =>
        .ready ({ last_stream_id := be32 b0 b1 b2 b3 % 2 ^ 31
                  error := errorFromCode (be32 b4 b5 b6 b7)
                  debug_data := debug }, rest)
      | _ => .crash

/-- PingFrame::read_from plus ReadPingFrame::poll from
src/frame/ping_frame.rs, run to completion on an input stream.  read_from
first requires payload_length = 8 (FrameSizeError) and then stream id 0
(ProtocolError); the ack field comes from flag 0x1. -/
def pingFrameDecode (h : FrameHeader) (input : List Nat) :
    PollResult (PingFrame × List Nat) :=
  if h.payload_length ≠ 8 then .err .FrameSizeError
  else if h.stream_id ≠ 0 then .err .ProtocolError
  else
    match readExact 8 input with
    | none => .pending
    | some (bytes, rest) => .ready ({ ack := h.flags % 2 = 1, data := bytes }, rest)

/-- The settings-payload loop of ReadSettingsFrame::poll from
src/frame/settings_frame.rs: split the payload into 6-byte chunks and keep
the settings Setting::from_bytes recognises.  A trailing chunk shorter than
6 bytes would index out of bounds (crash); the frame-size check makes it
unreachable. -/
def parseSettingsPayload (bytes : List Nat) : PollResult (List Setting) :=
  match bytes with
  | [] => .ready []
  | b0 :: b1 :: b2 :: b3 :: b4 :: b5 :: rest =>
    match settingFromBytes [b0, b1, b2, b3, b4, b5] with
    | .error e => .err e
    | .ok none =>
      match parseSettingsPayload rest with
      | .ready l => .ready l
      | r => r
    | .ok (some s) =>
      match parseSettingsPayload rest with
      | .ready l => .ready (s :: l)
      | r => r
  | _ => .crash

/-- SettingsFrame::read_from plus ReadSettingsFrame::poll from
src/frame/settings_frame.rs, run to completion on an input stream.
read_from requires payload_length divisible by 6 (FrameSizeError) and stream
id 0 (ProtocolError); with the ACK flag the payload must be empty
(FrameSizeError), checked after the payload bytes were read. -/
def settingsFrameDecode (h : FrameHeader) (input : List Nat) :
    PollResult (SettingsFrame × List Nat) :=
  if h.payload_length % 6 ≠ 0 then .err .FrameSizeError
  else if h.stream_id ≠ 0 then .err .ProtocolError
  else
    match readExact h.payload_length input with
    | none => .pending
    | some (bytes, rest) =>
      if h.flags % 2 = 1 then
        if h.payload_length ≠ 0 then .err .FrameSizeError
        else .ready (.Ack, rest)
      else
        match parseSettingsPayload bytes with
        | .ready settings => .ready (.Syn settings, rest)
        | .pending => .pending
        | .err e => .err e
        | .crash => .crash

/-- RstStreamFrame::read_from plus ReadRstStreamFrame::poll from
src/frame/rst_stream_frame.rs, run to completion on an input stream. -/
def rstStreamFrameDecode (h : FrameHeader) (input : List Nat) :
    PollResult (RstStreamFrame × List Nat) :=
  if h.payload_length ≠ 4 then .err .FrameSizeError
  else if h.stream_id = 0 then .err .ProtocolError
  else
    match readExact 4 input with
    | none => .pending
    | some (bytes, rest) =>
      match bytes with
      | [b0, b1, b2, b3] =>
        .ready ({ stream_id := h.stream_id
                  error := errorFromCode (be32 b0 b1 b2 b3) }, rest)
      | _ => .crash

/-- WindowUpdateFrame::read_from plus ReadWindowUpdateFrame::poll from
src/frame/window_update_frame.rs, run to completion on an input stream: the
31-bit increment is masked and must be nonzero (ProtocolError). -/
def windowUpdateFrameDecode (h : FrameHeader) (input : List Nat) :
    PollResult (WindowUpdateFrame × List Nat) :=
  if h.payload_length ≠ 4 then .err .FrameSizeError
  else
    match readExact 4 input with
    | none => .pending
    | some (bytes, rest) =>
      match bytes with
      | [b0, b1, b2, b3] =>
        let increment := be32 b0 b1 b2 b3 % 2 ^ 31
        if increment = 0 then .err .ProtocolError
        else .ready ({ stream_id := h.stream_id, window_size_increment := increment }, rest)
      | _ => .crash

/-- PriorityFrame::read_from plus ReadPriorityFrame::poll from
src/frame/priority_frame.rs, run to completion on an input stream. -/
def priorityFrameDecode (h : FrameHeader) (input : List Nat) :
    PollResult (PriorityFrame × List Nat) :=
  if h.payload_length ≠ 5 then .err .FrameSizeError
  else if h.stream_id = 0 then .err .ProtocolError
  else
    match readExact 5 input with
    | none => .pending
    | some (bytes, rest) =>
      match bytes with
      | [b0, b1, b2, b3, b4] =>
        .ready ({ stream_id := h.stream_id
                  priority := priorityFromBytes b0 b1 b2 b3 b4 }, rest)
      | _ => .crash

/-- ContinuationFrame::read_from plus ReadContinuationFrame::poll from
src/frame/continuation_frame.rs, run to completion on an input stream. -/
def continuationFrameDecode (h : FrameHeader) (input : List Nat) :
    PollResult (ContinuationFrame × List Nat) :=
  if h.stream_id = 0 then .err .ProtocolError
  else
    match readExact h.payload_length input with
    | none => .pending
    | some (payload, rest) =>
      .ready ({ stream_id := h.stream_id
                end_headers := h.flags % 8 / 4 = 1
                payload := payload }, rest)

/-- ReadFrame::poll from src/frame/mod.rs applied to a parsed header and the
remaining input stream: the max-frame-size check (FrameSizeError), then
dispatch by frame type.  A frame type outside 0x0..0x9 reaches an
unimplemented! macro in the source, modelled as crash. -/
def framePayloadDecode (maxFrameSize : Nat) (h : FrameHeader) (input : List Nat) :
    PollResult (Frame × List Nat) :=
  if maxFrameSize < h.payload_length then .err .FrameSizeError
  else
    match h.frame_type with
    | 0x0 =>
      match dataFrameDecode h input with
      | .ready (f, rest) => .ready (.Data f, rest)
      | .pending => .pending
      | .err e => .err e
      | .crash => .crash
    | 0x1 =>
      match headersFrameDecode h input with
      | .ready (f, rest) => .ready (.Headers f, rest)
      | .pending => .pending
      | .err e => .err e
      | .crash => .crash
    | 0x2 =>
      match priorityFrameDecode h input with
      | .ready (f, rest) => .ready (.Priority f, rest)
      | .pending => .pending
      | .err e => .err e
      | .crash => .crash
    | 0x3 =>
      match rstStreamFrameDecode h input with
      | .ready (f, rest) => .ready (.RstStream f, rest)
      | .pending => .pending
      | .err e => .err e
      | .crash => .crash
    | 0x4 =>
      match settingsFrameDecode h input with
      | .ready (f, rest) => .ready (.Settings f, rest)
      | .pending => .pending
      | .err e => .err e
      | .crash => .crash
    | 0x5 =>
      match pushPromiseFrameDecode h input with
      | .ready (f, rest) => .ready (.PushPromise f, rest)
      | .pending => .pending
      | .err e => .err e
      | .crash => .crash
    | 0x6 =>
      match pingFrameDecode h input with
      | .ready (f, rest) => .ready (.Ping f, rest)
      | .pending => .pending
      | .err e => .err e
      | .crash => .crash
    | 0x7 =>
      match goawayFrameDecode h input with
      | .ready (f, rest) => .ready (.Goaway f, rest)
      | .pending => .pending
      | .err e => .err e
      | .crash => .crash
    | 0x8 =>
      match windowUpdateFrameDecode h input with
      | .ready (f, rest) => .ready (.WindowUpdate f, rest)
      | .pending => .pending
      | .err e => .err e
      | .crash => .crash
    | 0x9 =>
      match continuationFrameDecode h input with
      | .ready (f, rest) => .ready (.Continuation f, rest)
      | .pending => .pending
      | .err e => .err e
      | .crash => .crash
    | _ => .crash

/-- Frame::read_from plus ReadFrame::poll from src/frame/mod.rs, run to
completion on an input stream: read the 9-octet header, then decode the
payload. -/
def frameDecode (maxFrameSize : Nat) (input : List Nat) :
    PollResult (Frame × List Nat) :=
  match readExact 9 input with
  | none => .pending
  | some (hb, rest) => framePayloadDecode maxFrameSize (frameHeaderParse hb) rest

/-- FrameSinkState from src/frame/sink.rs.  The underlying writer is
modelled by its remaining capacity: the number of bytes it accepts before
returning WouldBlock.  Idle carries the writer; Writing carries the
still-unwritten bytes of the in-progress frame and the writer. -/
inductive SinkState where
  | Idle (cap : Nat)
  | Writing (remaining : List Nat) (cap : Nat)
  deriving DecidableEq, Repr

/-- FrameSink from src/frame/sink.rs: the ordered queue of frames pending
serialization (already encoded here) and the write state. -/
structure SinkModel where
  queue : List (List Nat)
  state : SinkState
  deriving DecidableEq, Repr

/-- Async poll outcome of the Sink::poll_complete future. -/
inductive SinkPoll where
  | ready
  | notReady
  deriving DecidableEq, Repr

/-- FrameSink::start_send from src/frame/sink.rs: while a write is in
progress the frame is queued; when idle, writing the frame starts at once. -/
def sinkStartSend (m : SinkModel) (frameBytes : List Nat) : SinkModel :=
  match m.state with
  | .Writing _ _ => { m with queue := m.queue ++ [frameBytes] }
  | .Idle cap => { m with state := .Writing frameBytes cap }

/-- The write-advancing loop of FrameSink::poll_complete from
src/frame/sink.rs: while the in-progress write finishes within the writer
capacity, pop the next queued frame (or become idle); a write that would
block leaves the remaining bytes in progress. -/
def sinkDrain (cap : Nat) (rem : List Nat) (queue : List (List Nat)) :
    SinkState × List (List Nat) :=
  if rem.length ≤ cap then
    match queue with
    | [] => (.Idle (cap - rem.length), [])
    | f :: rest => sinkDrain (cap - rem.length) f rest
  else (.Writing (rem.drop cap) 0, queue)

/-- FrameSink::poll_complete from src/frame/sink.rs: advance writes, then
return Ok(Async::Ready(())) unconditionally - also when the loop broke with
a write still in progress. -/
def sinkPollComplete (m : SinkModel) : SinkModel × SinkPoll :=
  match m.state with
  | .Idle cap => ({ m with state := .Idle cap }, .ready)
  | .Writing rem cap =>
    let (st, q) := sinkDrain cap rem m.queue
    ({ queue := q, state := st }, .ready)

/-- Connection-level events from src/connection.rs (Event). -/
inductive Event where
  | Stream (stream_id : Nat)
  | Pong (data : List Nat)
  deriving DecidableEq, Repr

/-- The connection state of src/connection.rs that the frame handlers touch:
the settings-received flag, the emitted events, the frames submitted to the
sink (in submission order), the stream-id expectations, and the keys of the
stream registry. -/
structure Conn where
  is_settings_received : Bool
  events : List Event
  sinkFrames : List Frame
  next_self_stream_id : Nat
  next_peer_stream_id : Nat
  streams : List Nat
  deriving DecidableEq, Repr

/-- Connection::new from src/connection.rs: settings not yet received, no
events, the initial empty SETTINGS frame already submitted to the sink,
next self stream id 2, next peer stream id 1, empty registry. -/
def Conn.new : Conn :=
  { is_settings_received := false
    events := []
    sinkFrames := [.Settings (.Syn [])]
    next_self_stream_id := 2
    next_peer_stream_id := 1
    streams := [] }

/-- Outcome of a connection frame handler: ok with the new state, err with
an error kind, or crash for an unimplemented! panic. -/
inductive HandleResult where
  | ok (s : Conn)
  | err (e : HErrorKind)
  | crash
  deriving DecidableEq, Repr

/-- The HPACK decoder collaborator (Header::decode of src/header.rs backed
by the external hpack_codec crate): from a header block fragment to the
decoded field list, or a decode error. -/
def HpackFn : Type := List Nat → Except HErrorKind (List (List Nat × List Nat))

/-- Connection::handle_headers_frame from src/connection.rs: the
end_stream, priority, non-end_headers and already-registered cases reach
unimplemented! (crash); then the new stream id must be at least
next_peer_stream_id (ProtocolError otherwise); then the fragment is decoded
through HPACK, the stream is registered and a Stream event is emitted.
next_peer_stream_id is not changed anywhere. -/
def handleHeadersFrame (hp : HpackFn) (s : Conn) (f : HeadersFrame) : HandleResult :=
  if f.end_stream then .crash
  else if f.priority.isSome then .crash
  else if !f.end_headers then .crash
  else if s.streams.contains f.stream_id then .crash
  else if f.stream_id < s.next_peer_stream_id then .err .ProtocolError
  else
    match hp f.fragment with
    | .error e => .err e
    | .ok _fields =>
      .ok { s with streams := s.streams ++ [f.stream_id]
                   events := s.events ++ [.Stream f.stream_id] }

/-- Connection::handle_ping_frame from src/connection.rs: an ACK ping emits
a Pong event with the opaque data; a non-ACK ping submits a PING frame with
ack set and the same data to the sink. -/
def handlePingFrame (s : Conn) (f : PingFrame) : HandleResult :=
  if f.ack then .ok { s with events := s.events ++ [.Pong f.data] }
  else .ok { s with sinkFrames := s.sinkFrames ++ [.Ping { ack := true, data := f.data }] }

/-- Connection::handle_settings_frame from src/connection.rs: for a Syn
frame each setting goes through handle_setting, which is unimplemented!
(crash), so only an empty settings list completes and it only sets
is_settings_received; the Ack arm is unimplemented! (crash).  No SETTINGS
acknowledgement is submitted to the sink. -/
def handleSettingsFrame (s : Conn) (f : SettingsFrame) : HandleResult :=
  match f with
  | .Syn settings =>
    match settings with
    | [] => .ok { s with is_settings_received := true }
    | _ :: _ => .crash
  | .Ack => .crash

/-- Connection::handle_data_frame from src/connection.rs: a registered
stream receives the data (and end-of-stream); an unregistered stream reaches
unimplemented! (crash). -/
def handleDataFrame (s : Conn) (f : DataFrame) : HandleResult :=
  if s.streams.contains f.stream_id then .ok s else .crash

/-- Connection::handle_frame from src/connection.rs: every variant except
Settings first requires is_settings_received (ProtocolError otherwise), then
dispatches to its handler; Settings dispatches unconditionally.  The
continuation, goaway, priority, rst_stream, push_promise and window_update
handlers are unimplemented! (crash). -/
def handleFrame (hp : HpackFn) (s : Conn) (f : Frame) : HandleResult :=
  match f with
  | .Continuation _ =>
    if !s.is_settings_received then .err .ProtocolError else .crash
  | .Data f =>
    if !s.is_settings_received then .err .ProtocolError else handleDataFrame s f
  | .Goaway _ =>
    if !s.is_settings_received then .err .ProtocolError else .crash
  | .Headers f =>
    if !s.is_settings_received then .err .ProtocolError else handleHeadersFrame hp s f
  | .Ping f =>
    if !s.is_settings_received then .err .ProtocolError else handlePingFrame s f
  | .Priority _ =>
    if !s.is_settings_received then .err .ProtocolError else .crash
  | .RstStream _ =>
    if !s.is_settings_received then .err .ProtocolError else .crash
  | .PushPromise _ =>
    if !s.is_settings_received then .err .ProtocolError else .crash
  | .Settings f => handleSettingsFrame s f
  | .WindowUpdate _ =>
    if !s.is_settings_received then .err .ProtocolError else .crash

/-- An HPACK collaborator run in which every fragment decodes successfully
(the external hpack_codec crate is out of scope). -/
def hpOk : HpackFn := fun _ => .ok []

theorem readExact_append (l extra : List Nat) :
    readExact l.length (l ++ extra) = some (l, extra) := by
  simp [readExact, List.take_left, List.drop_left]

theorem readExact_cons (x : Nat) (rest : List Nat) :
    readExact 1 (x :: rest) = some ([x], rest) := by
  simp [readExact]

/-- C1: serializing a PingFrame with ack = true (header via frame_header,
payload via write_into) and decoding the bytes with ReadFrame yields a
PingFrame with ack = false: PingFrame::frame_header writes flags 0
regardless of the ack field, so the round-trip of the claim fails at this
input. -/
theorem ping_ack_roundtrip_lost :
    frameDecode 16384 (frameEncode (.Ping { ack := true, data := [1, 2, 3, 4, 5, 6, 7, 8] })) =
      .ready (.Ping { ack := false, data := [1, 2, 3, 4, 5, 6, 7, 8] }, []) ∧
    frameDecode 16384 (frameEncode (.Ping { ack := true, data := [1, 2, 3, 4, 5, 6, 7, 8] })) ≠
      .ready (.Ping { ack := true, data := [1, 2, 3, 4, 5, 6, 7, 8] }, []) := by
  constructor
  · rfl
  · decide

/-- C2: Setting::from_bytes on identifier SETTINGS_MAX_FRAME_SIZE: the
source check value <= 1 << 24 - 1 parses as value <= 1 << 23, so the
RFC-maximal value 2 ^ 24 - 1 (and the whole range (2 ^ 23, 2 ^ 24 - 1]) is
rejected with PROTOCOL_ERROR although the claim says it must be accepted;
2 ^ 23 is the largest accepted value. -/
theorem setting_max_frame_size_range_bug :
    settingFromBytes (be16Bytes 5 ++ be32Bytes (2 ^ 24 - 1)) = .error .ProtocolError ∧
    settingFromIdValue 5 (2 ^ 24 - 1) = .error .ProtocolError ∧
    settingFromIdValue 5 (2 ^ 23) = .ok (some (.MaxFrameSize (2 ^ 23))) ∧
    settingFromIdValue 5 (2 ^ 23 + 1) = .error .ProtocolError ∧
    settingFromIdValue 5 (2 ^ 14) = .ok (some (.MaxFrameSize (2 ^ 14))) ∧
    settingFromIdValue 5 (2 ^ 14 - 1) = .error .ProtocolError := by
  refine ⟨rfl, rfl, rfl, rfl, rfl, rfl⟩

/-- C3: Connection::handle_headers_frame never updates
next_peer_stream_id, so after a HEADERS frame opened peer stream 3 a later
HEADERS frame opening stream 1 still passes the
stream_id >= next_peer_stream_id assertion and is accepted (registered and
an event emitted) instead of being rejected with PROTOCOL_ERROR. -/
theorem headers_stream_id_regression_accepted :
    (handleFrame hpOk { Conn.new with is_settings_received := true }
        (.Headers { stream_id := 3, end_stream := false, end_headers := true,
                    priority := none, padding_len := none, fragment := [] }) =
      .ok { Conn.new with is_settings_received := true, streams := [3],
                          events := [.Stream 3] }) ∧
    (handleFrame hpOk { Conn.new with is_settings_received := true, streams := [3],
                                      events := [.Stream 3] }
        (.Headers { stream_id := 1, end_stream := false, end_headers := true,
                    priority := none, padding_len := none, fragment := [] }) =
      .ok { Conn.new with is_settings_received := true, streams := [3, 1],
                          events := [.Stream 3, .Stream 1] }) := by
  decide

/-- C4: the codec rejects a SETTINGS frame with the ACK flag and a nonzero
payload length with FRAME_SIZE_ERROR as claimed, but
Connection::handle_settings_frame reaches unimplemented! (a panic, not a
cleared awaiting-ACK marker) on an empty ACK, and processing a non-ACK
SETTINGS frame leaves the sink submissions unchanged: no SETTINGS frame
with the ACK flag is queued. -/
theorem settings_ack_handling_bug :
    settingsFrameDecode { payload_length := 6, frame_type := 4, flags := 1, stream_id := 0 }
        [0, 0, 0, 0, 0, 0] = .err .FrameSizeError ∧
    handleSettingsFrame Conn.new .Ack = .crash ∧
    handleSettingsFrame Conn.new (.Syn []) =
      .ok { Conn.new with is_settings_received := true } ∧
    ({ Conn.new with is_settings_received := true } : Conn).sinkFrames =
      [.Settings (.Syn [])] := by
  decide

/-- C5: an inbound frame whose type is the unknown code 0xA and whose
payload length 3 passes the max-frame-size check reaches the unimplemented!
arm of ReadFrame::poll: the source panics instead of consuming the payload
and discarding the frame. -/
theorem unknown_frame_type_crash :
    frameDecode 16384 [0, 0, 3, 0xA, 0, 0, 0, 0, 0, 1, 2, 3] = .crash ∧
    framePayloadDecode 16384
      { payload_length := 3, frame_type := 0xA, flags := 0, stream_id := 0 } [1, 2, 3] =
      .crash := by
  decide

/-- C6 counterexample: a PADDED DATA frame whose pad length N equals the
remaining payload length (payload_length 2, pad-length octet 1, one byte
left) decodes successfully to an empty data frame, whereas the claim
requires a PROTOCOL_ERROR whenever N is greater than or equal to the
remaining length. -/
theorem padding_eq_remaining_accepted :
    framePayloadDecode 16384
        { payload_length := 2, frame_type := 0x0, flags := 0x8, stream_id := 1 } [1, 0] =
      .ready (.Data { stream_id := 1, end_stream := false, padding_len := some 1,
                      data := [] }, []) ∧
    framePayloadDecode 16384
        { payload_length := 2, frame_type := 0x0, flags := 0x8, stream_id := 1 } [1, 0] ≠
      .err .ProtocolError := by
  decide

/-- C6 amended: for DATA, HEADERS (with or without the priority prefix) and
PUSH_PROMISE frames with the PADDED flag, decoding fails with
PROTOCOL_ERROR exactly when the pad length N is strictly greater than the
remaining payload length (the bytes left after the pad-length octet and any
priority or promised-stream-id prefix); otherwise it succeeds and the last
N bytes are discarded. -/
theorem padding_check_strict :
    (∀ (sid flags pad : Nat) (body extra : List Nat),
      sid ≠ 0 → flags % 16 / 8 = 1 →
      dataFrameDecode
          { payload_length := body.length + 1, frame_type := 0x0, flags := flags,
            stream_id := sid } (pad :: (body ++ extra)) =
        if body.length < pad then .err .ProtocolError
        else .ready ({ stream_id := sid, end_stream := flags % 2 = 1,
                       padding_len := some pad,
                       data := body.take (body.length - pad) }, extra)) ∧
    (∀ (sid flags pad : Nat) (body extra : List Nat),
      sid ≠ 0 → flags % 16 / 8 = 1 → flags % 64 / 32 ≠ 1 →
      headersFrameDecode
          { payload_length := body.length + 1, frame_type := 0x1, flags := flags,
            stream_id := sid } (pad :: (body ++ extra)) =
        if body.length < pad then .err .ProtocolError
        else .ready ({ stream_id := sid, end_stream := flags % 2 = 1,
                       end_headers := flags % 8 / 4 = 1, priority := none,
                       padding_len := some pad,
                       fragment := body.take (body.length - pad) }, extra)) ∧
    (∀ (sid flags pad p0 p1 p2 p3 p4 : Nat) (body extra : List Nat),
      sid ≠ 0 → flags % 16 / 8 = 1 → flags % 64 / 32 = 1 →
      headersFrameDecode
          { payload_length := body.length + 6, frame_type := 0x1, flags := flags,
            stream_id := sid } (pad :: p0 :: p1 :: p2 :: p3 :: p4 :: (body ++ extra)) =
        if body.length < pad then .err .ProtocolError
        else .ready ({ stream_id := sid, end_stream := flags % 2 = 1,
                       end_headers := flags % 8 / 4 = 1,
                       priority := some (priorityFromBytes p0 p1 p2 p3 p4),
                       padding_len := some pad,
                       fragment := body.take (body.length - pad) }, extra)) ∧
    (∀ (sid flags pad s0 s1 s2 s3 : Nat) (body extra : List Nat),
      sid ≠ 0 → flags % 16 / 8 = 1 →
      pushPromiseFrameDecode
          { payload_length := body.length + 5, frame_type := 0x5, flags := flags,
            stream_id := sid } (pad :: s0 :: s1 :: s2 :: s3 :: (body ++ extra)) =
        if body.length < pad then .err .ProtocolError
        else .ready ({ stream_id := sid,
                       promise_stream_id := be32 s0 s1 s2 s3 % 2 ^ 31,
                       end_headers := flags % 8 / 4 = 1,
                       padding_len := some pad,
                       fragment := body.take (body.length - pad) }, extra)) := by
  refine ⟨?_, ?_, ?_, ?_⟩
  · intro sid flags pad body extra hsid hpadded
    simp [dataFrameDecode, hsid, hpadded, readExact_cons, readExact_append]
  · intro sid flags pad body extra hsid hpadded hprio
    simp [headersFrameDecode, hsid, hpadded, hprio, readExact_cons, readExact_append]
  · intro sid flags pad p0 p1 p2 p3 p4 body extra hsid hpadded hprio
    have h5 : readExact 5 (p0 :: p1 :: p2 :: p3 :: p4 :: (body ++ extra)) =
        some ([p0, p1, p2, p3, p4], body ++ extra) := by
      simp [readExact]
    simp [headersFrameDecode, hsid, hpadded, hprio, readExact_cons, h5, readExact_append]
  · intro sid flags pad s0 s1 s2 s3 body extra hsid hpadded
    have h4 : readExact 4 (s0 :: s1 :: s2 :: s3 :: (body ++ extra)) =
        some ([s0, s1, s2, s3], body ++ extra) := by
      simp [readExact]
    simp [pushPromiseFrameDecode, hsid, hpadded, readExact_cons, h4, readExact_append]

/-- C6 witness: the strict padding check applied to a concrete PADDED DATA
frame with pad length 1 and two data bytes. -/
theorem padding_check_strict_witness :
    dataFrameDecode { payload_length := 3, frame_type := 0x0, flags := 0x8, stream_id := 1 }
        (1 :: [7, 7]) =
      .ready ({ stream_id := 1, end_stream := false, padding_len := some 1,
                data := [7] }, []) := by
  have h := padding_check_strict.1 1 8 1 [7, 7] [] (by decide) (by decide)
  simpa using h

/-- C7: while is_settings_received is false, Connection::handle_frame
returns PROTOCOL_ERROR for every non-Settings frame; once it is true each
variant is dispatched to its per-type handler, and Settings is dispatched
unconditionally. -/
theorem handle_frame_settings_gate (hp : HpackFn) (s : Conn) :
    (∀ f : Frame, s.is_settings_received = false → (∀ sf, f ≠ .Settings sf) →
      handleFrame hp s f = .err .ProtocolError) ∧
    (∀ f, s.is_settings_received = true →
      handleFrame hp s (.Headers f) = handleHeadersFrame hp s f) ∧
    (∀ f, s.is_settings_received = true →
      handleFrame hp s (.Data f) = handleDataFrame s f) ∧
    (∀ f, s.is_settings_received = true →
      handleFrame hp s (.Ping f) = handlePingFrame s f) ∧
    (∀ f, handleFrame hp s (.Settings f) = handleSettingsFrame s f) := by
  refine ⟨?_, ?_, ?_, ?_, ?_⟩
  · intro f hrecv hnot
    cases f with
    | Settings sf => exact absurd rfl (hnot sf)
    | Continuation f => simp [handleFrame, hrecv]
    | Data f => simp [handleFrame, hrecv]
    | Goaway f => simp [handleFrame, hrecv]
    | Headers f => simp [handleFrame, hrecv]
    | Ping f => simp [handleFrame, hrecv]
    | Priority f => simp [handleFrame, hrecv]
    | RstStream f => simp [handleFrame, hrecv]
    | PushPromise f => simp [handleFrame, hrecv]
    | WindowUpdate f => simp [handleFrame, hrecv]
  · intro f hrecv
    simp [handleFrame, hrecv]
  · intro f hrecv
    simp [handleFrame, hrecv]
  · intro f hrecv
    simp [handleFrame, hrecv]
  · intro f
    simp [handleFrame]

/-- C7 witness: a fresh connection (settings not yet received) rejects a
PING frame with PROTOCOL_ERROR. -/
theorem handle_frame_settings_gate_witness :
    handleFrame hpOk Conn.new (.Ping { ack := false, data := [0, 0, 0, 0, 0, 0, 0, 0] }) =
      .err .ProtocolError := by
  refine (handle_frame_settings_gate hpOk Conn.new).1 _ rfl ?_
  intro sf h
  simp at h

/-- C8: PingFrame::read_from rejects a header whose payload length is not 8
with FRAME_SIZE_ERROR and one whose stream id is nonzero with
PROTOCOL_ERROR, before any payload is consumed or handler runs; for an
accepted PING frame, Connection::handle_ping_frame emits a Pong event
carrying the opaque data when ack is set and otherwise submits to the sink
a PING frame with ack set and the same data. -/
theorem ping_frame_semantics (s : Conn) (d : List Nat) (h : FrameHeader)
    (input : List Nat) :
    (h.payload_length ≠ 8 → pingFrameDecode h input = .err .FrameSizeError) ∧
    (h.payload_length = 8 → h.stream_id ≠ 0 →
      pingFrameDecode h input = .err .ProtocolError) ∧
    handlePingFrame s { ack := true, data := d } =
      .ok { s with events := s.events ++ [.Pong d] } ∧
    handlePingFrame s { ack := false, data := d } =
      .ok { s with sinkFrames := s.sinkFrames ++ [.Ping { ack := true, data := d }] } := by
  refine ⟨?_, ?_, ?_, ?_⟩
  · intro hlen
    simp [pingFrameDecode, hlen]
  · intro hlen hsid
    simp [pingFrameDecode, hlen, hsid]
  · simp [handlePingFrame]
  · simp [handlePingFrame]

/-- C8 witness: the ping semantics applied to a concrete state and header (a
PING header on stream 1 with the correct payload length is rejected with
PROTOCOL_ERROR). -/
theorem ping_frame_semantics_witness :
    pingFrameDecode { payload_length := 8, frame_type := 6, flags := 0, stream_id := 1 }
        [0, 0, 0, 0, 0, 0, 0, 0] = .err .ProtocolError ∧
    handlePingFrame Conn.new { ack := true, data := [9, 9, 9, 9, 9, 9, 9, 9] } =
      .ok { Conn.new with events := [.Pong [9, 9, 9, 9, 9, 9, 9, 9]] } := by
  have h := ping_frame_semantics Conn.new [9, 9, 9, 9, 9, 9, 9, 9]
      { payload_length := 8, frame_type := 6, flags := 0, stream_id := 1 }
      [0, 0, 0, 0, 0, 0, 0, 0]
  exact ⟨h.2.1 rfl (by decide), h.2.2.1⟩

/-- C9: FrameSink::poll_complete returns Ok(Async::Ready(())) even when the
underlying writer blocks mid-frame: with two bytes of the current frame
still unwritten and a writer of capacity zero the state stays Writing, yet
the poll reports ready, contradicting the claim that ready is returned only
when the queue is empty and no write is in progress. -/
theorem poll_complete_ready_when_blocked :
    sinkPollComplete { queue := [], state := .Writing [0, 0] 0 } =
      ({ queue := [], state := .Writing [0, 0] 0 }, .ready) ∧
    sinkPollComplete { queue := [[1]], state := .Writing [0, 0] 0 } =
      ({ queue := [[1]], state := .Writing [0, 0] 0 }, .ready) := by
  decide

/-- C10: payload decoding panics (crash) instead of returning an error
value: a GOAWAY frame with payload length 4 hits the unchecked slice
indices bytes[4..8]; a PADDED DATA frame with payload length 0 underflows
payload_length - 1; a PADDED HEADERS frame with the priority flag and
payload length 3 underflows payload_length - 6; a PADDED PUSH_PROMISE frame
with payload length 2 underflows payload_length - 5.  All four headers pass
the max-frame-size check. -/
theorem payload_decode_crash_cases :
    framePayloadDecode 16384
        { payload_length := 4, frame_type := 0x7, flags := 0, stream_id := 0 }
        [0, 0, 0, 0] = .crash ∧
    framePayloadDecode 16384
        { payload_length := 0, frame_type := 0x0, flags := 0x8, stream_id := 1 }
        [5] = .crash ∧
    framePayloadDecode 16384
        { payload_length := 3, frame_type := 0x1, flags := 0x28, stream_id := 1 }
        [0, 0, 0, 0, 0, 0] = .crash ∧
    framePayloadDecode 16384
        { payload_length := 2, frame_type := 0x5, flags := 0x8, stream_id := 1 }
        [0, 0, 0, 0, 0] = .crash := by
  decide

end Xhttp2
